import Mathlib

/-!
A shallow embedding of `combined_server.py` (CombinedHandler) from the
openwebui-chatbot-isi repository, together with theorems settling the
behavioural claims about its proxy-forwarding logic.

Modelling conventions:
* Python strings are Lean `String`s; raw byte payloads are `List Nat`.
* `os.environ` lookups made at request time are captured in a `Config`
  record passed to the handler.
* The two stdlib effects the handler performs — `base64.b64decode(...).decode`
  and the single `urllib.request.urlopen` call — are passed in as oracles:
  `b64decode : String → Except String String` (`.error` carries `str(e)` of the
  raised exception) and `upstream : UpstreamOutcome` (the outcome the one
  outbound attempt would have).  The handler is otherwise a pure function from
  the incoming request to the response it writes, plus a record of whether an
  outbound request was dispatched and what it contained.
-/

/-- HTTP methods the handler defines (`do_GET`, `do_POST`, `do_OPTIONS`).
Other methods are answered 501 by the Python base class and are out of scope. -/
inductive Method where
  | GET
  | POST
  | OPTIONS
deriving DecidableEq, Repr

/-- An incoming HTTP request.  `body` is the byte sequence the handler's
`rfile.read` yields for a POST body (the `Content-Length`-bounded read of
line 145-146 is abstracted as this field). -/
structure Request where
  method : Method
  path : String
  headers : List (String × String)
  body : List Nat
deriving DecidableEq, Repr

/-- Server-wide configuration read from the environment
(`OPENWEBUI_API_KEY`, `DEFAULT_OPENWEBUI_URL`); `none` models an unset
variable. -/
structure Config where
  serverApiKey : Option String
  defaultUrl : Option String
deriving DecidableEq, Repr

/-- A response body: either raw bytes written verbatim (`self.wfile.write`
of upstream bytes) or a Python `str` written after `.encode()`. -/
inductive Body where
  | raw (bytes : List Nat)
  | utf8 (s : String)
deriving DecidableEq, Repr

/-- A response sent via `send_response` + explicit `send_header` calls. -/
structure HttpResponse where
  status : Nat
  headers : List (String × String)
  body : Body
deriving DecidableEq, Repr

/-- What the handler writes back: either a `send_response`-built response, or
a `send_error code message` response (the stdlib error page path). -/
inductive HandlerResponse where
  | normal (r : HttpResponse)
  | error (code : Nat) (message : String)
deriving DecidableEq, Repr

/-- The outbound `urllib.request.Request` built at lines 150-161. -/
structure OutboundRequest where
  url : String
  method : Method
  headers : List (String × String)
  body : Option (List Nat)
deriving DecidableEq, Repr

/-- Result of handling one request: the response written to the client,
whether the single `urlopen` dispatch was reached, and the outbound request
that was (or would have been) sent. -/
structure HandlerResult where
  response : HandlerResponse
  dispatched : Bool
  outbound : Option OutboundRequest
deriving DecidableEq, Repr

/-- The outcome of the single `urllib.request.urlopen(req, timeout=300)`
call: the `with` block runs (2xx success), `urllib.error.HTTPError` is raised
(upstream answered a non-success status), `urllib.error.URLError` is raised
(transport failure), or some other exception is raised. -/
inductive UpstreamOutcome where
  | success (status : Nat) (headers : List (String × String)) (body : List Nat)
  | httpError (code : Nat) (reason : String)
  | urlError (reason : String)
  | otherError (msg : String)
deriving DecidableEq, Repr

/-- Does the character list `s` start with the character list `pat`?
(Executable replacement for `String.startsWith`, evaluable by the kernel.) -/
def charsStartWith : List Char → List Char → Bool
  | _, [] => true
  | [], _ :: _ => false
  | c :: cs, d :: ds => c == d && charsStartWith cs ds

/-- Python `s.startswith(pat)`. -/
def strStartsWith (s pat : String) : Bool :=
  charsStartWith s.data pat.data

/-- Python `s.endswith(pat)`. -/
def strEndsWith (s pat : String) : Bool :=
  charsStartWith s.data.reverse pat.data.reverse

/-- Python `s[n:]` (drop the first `n` characters). -/
def strDrop (s : String) (n : Nat) : String :=
  String.mk (s.data.drop n)

/-- Python `s.lower()` (over the ASCII range relevant to header names). -/
def strToLower (s : String) : String :=
  String.mk (s.data.map Char.toLower)

/-- `self.headers.get(name)`: case-insensitive lookup returning the first
matching header value (Python `email.message.Message.get`). -/
def headerGet : List (String × String) → String → Option String
  | [], _ => none
  | p :: hs, name =>
    if strToLower p.1 == strToLower name then some p.2 else headerGet hs name

/-- Python truthiness of an optional string: `None` and `""` are falsy.
Returns the string exactly when the Python value is truthy. -/
def truthyStr : Option String → Option String
  | none => none
  | some s => if s = "" then none else some s

/-- The three headers added by `send_cors_headers` (lines 216-220), in order. -/
def cors_headers : List (String × String) :=
  [("Access-Control-Allow-Origin", "*"),
   ("Access-Control-Allow-Methods", "GET, POST, OPTIONS"),
   ("Access-Control-Allow-Headers", "Content-Type, Authorization, X-API-Key, X-OpenWebUI-URL")]

/-- Modelled from the Python stdlib: `BaseHTTPRequestHandler.send_error`
emits `Connection: close` and a `text/html` content type (plus
`Content-Length`/`Server`/`Date` bookkeeping headers) and never calls
`send_cors_headers`. -/
def send_error_headers : List (String × String) :=
  [("Connection", "close"), ("Content-Type", "text/html;charset=utf-8")]

/-- The explicit header set of a handler response. -/
def HandlerResponse.headerList : HandlerResponse → List (String × String)
  | .normal r => r.headers
  | .error _ _ => send_error_headers

/-- The status code of a handler response. -/
def HandlerResponse.statusCode : HandlerResponse → Nat
  | .normal r => r.status
  | .error c _ => c

/-- Credential resolution, lines 97-114: a truthy server-side
`OPENWEBUI_API_KEY` wins outright; otherwise the `X-API-Key` header must be
present (and truthy) and base64-decode to UTF-8 text. -/
def resolveApiKey (cfg : Config) (b64decode : String → Except String String)
    (hs : List (String × String)) : Except (Nat × String) String :=
  match truthyStr cfg.serverApiKey with
  | some server_api_key => .ok server_api_key
  | none =>
    match truthyStr (headerGet hs "X-API-Key") with
    | none => .error (400, "Missing X-API-Key header or server-side OPENWEBUI_API_KEY environment variable")
    | some encoded_api_key =>
      match b64decode encoded_api_key with
      | .ok api_key => .ok api_key
      | .error e => .error (400, "Invalid API key encoding: " ++ e)

/-- Target base-URL resolution, lines 94 and 116-123: the `X-OpenWebUI-URL`
header if truthy, else a truthy `DEFAULT_OPENWEBUI_URL`, else a 400. -/
def resolveTarget (cfg : Config) (openwebui_url : Option String) :
    Except (Nat × String) String :=
  match truthyStr openwebui_url with
  | some u => .ok u
  | none =>
    match truthyStr cfg.defaultUrl with
    | some u => .ok u
    | none => .error (400, "Missing X-OpenWebUI-URL header or DEFAULT_OPENWEBUI_URL environment variable")

/-- Python `s.rstrip('/')`: remove every trailing `'/'`. -/
def rstripSlash (s : String) : String :=
  String.mk ((s.data.reverse.dropWhile (fun c => c == '/')).reverse)

/-- Python `s.lstrip('/')`: remove every leading `'/'`. -/
def lstripSlash (s : String) : String :=
  String.mk (s.data.dropWhile (fun c => c == '/'))

/-- Target URL construction, lines 132-137. -/
def buildTargetUrl (openwebui_url api_endpoint : String) : String :=
  if strEndsWith api_endpoint "chat/completions" then
    rstripSlash openwebui_url ++ "/api/v1/" ++ lstripSlash api_endpoint
  else
    rstripSlash openwebui_url ++ "/" ++ lstripSlash api_endpoint

/-- The fixed browser-like User-Agent of line 129. -/
def user_agent : String :=
  "Mozilla/5.0 (Windows NT 10.0; Win64; x64) AppleWebKit/537.36 (KHTML, like Gecko) Chrome/91.0.4472.124 Safari/537.36"

/-- Outbound header construction, lines 126-130. -/
def outboundHeaders (api_key : String) : List (String × String) :=
  [("Authorization", "Bearer " ++ api_key),
   ("Content-Type", "application/json"),
   ("User-Agent", user_agent)]

/-- The hop-by-hop denylist of line 177. -/
def hop_by_hop : List String := ["connection", "transfer-encoding"]

/-- The header-copy loop of lines 176-178: keep each upstream header whose
lowercased name is not on the denylist. -/
def filterHopByHop (hs : List (String × String)) : List (String × String) :=
  hs.filter (fun p => ! hop_by_hop.contains (strToLower p.1))

/-- Lowercase hexadecimal digit. -/
def hexDigit (n : Nat) : Char :=
  if n < 10 then Char.ofNat (48 + n) else Char.ofNat (87 + n)

/-- Four lowercase hex digits, as in Python's `'\\u%04x'`. -/
def hex4 (n : Nat) : String :=
  String.mk [hexDigit (n / 4096 % 16), hexDigit (n / 256 % 16),
             hexDigit (n / 16 % 16), hexDigit (n % 16)]

/-- Modelled from the Python stdlib: how `json.dumps` (default
`ensure_ascii=True`) escapes one character inside a string literal. -/
def jsonEscChar (c : Char) : String :=
  if c = '"' then "\\\""
  else if c = '\\' then "\\\\"
  else if c = '\n' then "\\n"
  else if c = '\r' then "\\r"
  else if c = '\t' then "\\t"
  else if c.toNat = 8 then "\\b"
  else if c.toNat = 12 then "\\f"
  else if c.toNat < 32 ∨ c.toNat > 126 then
    if c.toNat < 65536 then "\\u" ++ hex4 c.toNat
    else "\\u" ++ hex4 (55296 + (c.toNat - 65536) / 1024) ++
         "\\u" ++ hex4 (56320 + (c.toNat - 65536) % 1024)
  else String.singleton c

/-- `json.dumps` of a Python `str`. -/
def jsonStringLit (s : String) : String :=
  "\"" ++ String.join (s.data.map jsonEscChar) ++ "\""

/-- The JSON body written on the `HTTPError` path, lines 194-201:
`json.dumps` (default separators) of the nested error dict, whose message is
the f-string `"Request failed: " + str(e.reason)`. -/
def httpErrorBody (code : Nat) (reason : String) : String :=
  "\x7b\"error\": \x7b\"message\": " ++ jsonStringLit ("Request failed: " ++ reason) ++
  ", \"type\": \"http_error\", \"code\": " ++ toString code ++ "\x7d\x7d"

/-- `handle_proxy_request` (lines 87-214) as a pure function of the
configuration, the base64-decode oracle, the would-be upstream outcome and
the incoming request. -/
def handle_proxy_request (cfg : Config) (b64decode : String → Except String String)
    (upstream : UpstreamOutcome) (req : Request) : HandlerResult :=
  if strStartsWith req.path "/proxy/" then
    let api_endpoint := strDrop req.path ("/proxy/".length)
    let openwebui_url := headerGet req.headers "X-OpenWebUI-URL"
    match resolveApiKey cfg b64decode req.headers with
    | .error (code, msg) =>
      { response := .error code msg, dispatched := false, outbound := none }
    | .ok api_key =>
      match resolveTarget cfg openwebui_url with
      | .error (code, msg) =>
        { response := .error code msg, dispatched := false, outbound := none }
      | .ok url =>
        let target_url := buildTargetUrl url api_endpoint
        let post_data : Option (List Nat) :=
          match req.method with
          | .POST => some req.body
          | _ => none
        let out : OutboundRequest :=
          { url := target_url, method := req.method,
            headers := outboundHeaders api_key, body := post_data }
        match upstream with
        | .success status rhs body =>
          { response := .normal
              { status := status,
                headers := filterHopByHop rhs ++ cors_headers,
                body := .raw body },
            dispatched := true, outbound := some out }
        | .httpError code reason =>
          { response := .normal
              { status := code,
                headers := ("Content-Type", "application/json") :: cors_headers,
                body := .utf8 (httpErrorBody code reason) },
            dispatched := true, outbound := some out }
        | .urlError reason =>
          { response := .error 500 ("URL Error: " ++ reason),
            dispatched := true, outbound := some out }
        | .otherError msg =>
          { response := .error 500 ("Request failed with error: " ++ msg),
            dispatched := true, outbound := some out }
  else
    { response := .error 400 "Invalid proxy path", dispatched := false, outbound := none }

/-- `serve_webchat_file` (lines 69-85): `some content` models a readable
`webchat.html`, `none` models `FileNotFoundError`. -/
def serve_webchat_file (webchat : Option (List Nat)) : HandlerResult :=
  match webchat with
  | some content =>
    { response := .normal
        { status := 200,
          headers := ("Content-type", "text/html") :: cors_headers,
          body := .raw content },
      dispatched := false, outbound := none }
  | none =>
    { response := .error 404 "webchat.html not found",
      dispatched := false, outbound := none }

/-- The 404 branch of `do_GET`/`do_POST` (lines 50-55 and 62-67):
`send_response(404)`, no extra headers, body bytes `b"Not Found"`. -/
def notFoundResult : HandlerResult :=
  { response := .normal { status := 404, headers := [], body := .utf8 "Not Found" },
    dispatched := false, outbound := none }

/-- Top-level dispatch: `do_OPTIONS` (lines 36-40), `do_GET` (lines 42-55)
and `do_POST` (lines 57-67). -/
def handle_request (cfg : Config) (b64decode : String → Except String String)
    (upstream : UpstreamOutcome) (webchat : Option (List Nat)) (req : Request) :
    HandlerResult :=
  match req.method with
  | .OPTIONS =>
    { response := .normal { status := 200, headers := cors_headers, body := .raw [] },
      dispatched := false, outbound := none }
  | .GET =>
    if req.path = "/" ∨ req.path = "/webchat.html" then
      serve_webchat_file webchat
    else if strStartsWith req.path "/proxy/" then
      handle_proxy_request cfg b64decode upstream req
    else
      notFoundResult
  | .POST =>
    if strStartsWith req.path "/proxy/" then
      handle_proxy_request cfg b64decode upstream req
    else
      notFoundResult

/-! ## Spec-side definitions used for refinement comparisons -/

/-- The URL construction as the claim words it: trim EXACTLY ONE trailing
slash from the base and exactly one leading slash from the sub-path, then
join with a single slash (under `/api/v1/` when the sub-path ends with
`chat/completions`).  Written from the claim, to be compared with
`buildTargetUrl` from the source. -/
def buildTargetUrlClaimOne (base sub : String) : String :=
  let b := if strEndsWith base "/" then String.mk base.data.dropLast else base
  let s := if strStartsWith sub "/" then strDrop sub 1 else sub
  if strEndsWith sub "chat/completions" then b ++ "/api/v1/" ++ s
  else b ++ "/" ++ s

/-- Remove every leading `'/'` from a character list, by direct recursion. -/
def dropLeadingSlashes : List Char → List Char
  | [] => []
  | c :: cs => if c = '/' then dropLeadingSlashes cs else c :: cs

/-- The URL construction as the amended claim words it: trim ALL trailing
slashes from the base and ALL leading slashes from the sub-path, then join
with a single slash (under `/api/v1/` when the sub-path ends with
`chat/completions`). -/
def buildTargetUrlAmended (base sub : String) : String :=
  let b := String.mk (dropLeadingSlashes base.data.reverse).reverse
  let s := String.mk (dropLeadingSlashes sub.data)
  if strEndsWith sub "chat/completions" then b ++ "/api/v1/" ++ s
  else b ++ "/" ++ s

/-- The relayed-response header set drops every X-API-Key entry of `hs`
(case-insensitively); used to say two requests are identical except for
that header. -/
def removeHeader (name : String) : List (String × String) → List (String × String)
  | [] => []
  | p :: hs =>
    if strToLower p.1 != strToLower name then p :: removeHeader name hs
    else removeHeader name hs

/-- Does the header list contain any cross-origin (`Access-Control-*`)
header, case-insensitively? -/
def hasAnyCors (hs : List (String × String)) : Bool :=
  hs.any (fun p => strStartsWith (strToLower p.1) "access-control-")

/-- Does the header list contain an `Access-Control-Allow-Origin` header,
case-insensitively? -/
def hasCorsOrigin (hs : List (String × String)) : Bool :=
  hs.any (fun p => strToLower p.1 == "access-control-allow-origin")

/-! ## Helper lemmas -/

theorem dropLeadingSlashes_eq_dropWhile (l : List Char) :
    dropLeadingSlashes l = l.dropWhile (fun c => c == '/') := by
  induction l with
  | nil => rfl
  | cons c cs ih =>
    by_cases h : c = '/'
    · simp [dropLeadingSlashes, List.dropWhile, h, ih]
    · have hb : (c == '/') = false := by simpa using h
      simp [dropLeadingSlashes, List.dropWhile, h, hb]

/-! ## C1: target-URL construction -/

/-- C1 (counterexample): the claim's "trim exactly one trailing slash"
reading of the URL construction disagrees with the code on the base
`"https://host//"` with sub-path `"models"`: the code (`rstrip('/')`)
collapses both trailing slashes and yields `"https://host/models"`, while
the claimed procedure yields `"https://host//models"`. -/
theorem buildTargetUrl_trimOne_counterexample :
    buildTargetUrl "https://host//" "models" = "https://host/models" ∧
    buildTargetUrlClaimOne "https://host//" "models" = "https://host//models" ∧
    buildTargetUrl "https://host//" "models" ≠
      buildTargetUrlClaimOne "https://host//" "models" ∧
    ((handle_proxy_request { serverApiKey := some "srv", defaultUrl := none }
        (fun s => .ok s) (.success 200 [] [])
        { method := .GET, path := "/proxy/models",
          headers := [("X-OpenWebUI-URL", "https://host//")],
          body := [] }).outbound).map OutboundRequest.url =
      some "https://host/models" :=
  ⟨by decide, by decide, by decide, by decide⟩

/-- C1 (amended): the constructed target URL is obtained by trimming ALL
trailing slashes from the base and ALL leading slashes from the sub-path and
joining with a single slash, inserting `/api/v1/` exactly when the sub-path
ends with the literal `chat/completions`; and the two concrete examples of
the claim hold. -/
theorem buildTargetUrl_spec :
    (∀ base sub : String, buildTargetUrl base sub = buildTargetUrlAmended base sub) ∧
    buildTargetUrl "https://host/" "chat/completions" = "https://host/api/v1/chat/completions" ∧
    buildTargetUrl "https://host" "models" = "https://host/models" := by
  refine ⟨fun base sub => ?_, by decide, by decide⟩
  simp only [buildTargetUrl, buildTargetUrlAmended, rstripSlash, lstripSlash,
    dropLeadingSlashes_eq_dropWhile]

/-! ## C2: server-side key precedence -/

theorem headerGet_removeHeader (hs : List (String × String)) (n m : String)
    (h : strToLower m ≠ strToLower n) :
    headerGet (removeHeader n hs) m = headerGet hs m := by
  induction hs with
  | nil => rfl
  | cons p t ih =>
    by_cases hpn : strToLower p.1 = strToLower n
    · have hpm : (strToLower p.1 == strToLower m) = false :=
        beq_eq_false_iff_ne.mpr fun hh => h (hh.symm.trans hpn)
      simp [removeHeader, headerGet, hpn, hpm, ih, Ne.symm h]
    · by_cases hpm : strToLower p.1 = strToLower m
      · simp [removeHeader, headerGet, hpn, hpm, h]
      · simp [removeHeader, headerGet, hpn, hpm, ih, h]

/-- C2: when the server-wide `OPENWEBUI_API_KEY` is configured (non-empty),
the resolved bearer token is exactly that server token, and the handler's
entire result is unchanged by adding, removing or altering `X-API-Key`
headers: two proxy requests that agree on method, path, body and on all
non-`X-API-Key` headers are handled identically. -/
theorem serverKey_shadows_clientKey (cfg : Config)
    (b64decode : String → Except String String) (upstream : UpstreamOutcome)
    (k : String) (r1 r2 : Request)
    (hk : truthyStr cfg.serverApiKey = some k)
    (hm : r1.method = r2.method) (hp : r1.path = r2.path) (hb : r1.body = r2.body)
    (hh : removeHeader "X-API-Key" r1.headers = removeHeader "X-API-Key" r2.headers) :
    resolveApiKey cfg b64decode r1.headers = .ok k ∧
    handle_proxy_request cfg b64decode upstream r1 =
      handle_proxy_request cfg b64decode upstream r2 := by
  have hres : ∀ hs, resolveApiKey cfg b64decode hs = .ok k := fun hs => by
    simp [resolveApiKey, hk]
  have hurl : headerGet r1.headers "X-OpenWebUI-URL" =
      headerGet r2.headers "X-OpenWebUI-URL" := by
    rw [← headerGet_removeHeader r1.headers "X-API-Key" "X-OpenWebUI-URL" (by decide),
        ← headerGet_removeHeader r2.headers "X-API-Key" "X-OpenWebUI-URL" (by decide), hh]
  refine ⟨hres r1.headers, ?_⟩
  simp only [handle_proxy_request, hres, hurl, hm, hp, hb]

/-- C2 (witness): concrete instance — with server key `"srv"` configured, a
request carrying `X-API-Key: !!!` and one carrying none at all resolve the
token `"srv"` and get identical handling. -/
theorem serverKey_shadows_clientKey_witness :
    resolveApiKey { serverApiKey := some "srv", defaultUrl := some "https://host" }
        (fun _ => .error "binascii.Error") [("X-API-Key", "!!!")] = .ok "srv" ∧
    handle_proxy_request { serverApiKey := some "srv", defaultUrl := some "https://host" }
        (fun _ => .error "binascii.Error") (.success 200 [] [7])
        { method := .GET, path := "/proxy/models",
          headers := [("X-API-Key", "!!!")], body := [] } =
      handle_proxy_request { serverApiKey := some "srv", defaultUrl := some "https://host" }
        (fun _ => .error "binascii.Error") (.success 200 [] [7])
        { method := .GET, path := "/proxy/models", headers := [], body := [] } :=
  serverKey_shadows_clientKey { serverApiKey := some "srv", defaultUrl := some "https://host" }
    (fun _ => .error "binascii.Error") (.success 200 [] [7]) "srv"
    { method := .GET, path := "/proxy/models", headers := [("X-API-Key", "!!!")], body := [] }
    { method := .GET, path := "/proxy/models", headers := [], body := [] }
    (by decide) rfl rfl rfl (by decide)

/-! ## C3: upstream HTTP-error relay -/

/-- C3 (counterexample): on upstream 429 "Too Many Requests" the relayed
status is indeed 429, but the body is NOT the claimed
`{"error":{"message":"Too Many Requests","type":"http_error","code":429}}`:
the code prefixes the message with `Request failed: ` and `json.dumps` emits
spaces after `:` and `,`. -/
theorem httpError_body_counterexample :
    (handle_proxy_request { serverApiKey := some "srv", defaultUrl := some "https://host" }
        (fun _ => .error "x") (.httpError 429 "Too Many Requests")
        { method := .GET, path := "/proxy/models", headers := [], body := [] }).response =
      .normal
        { status := 429,
          headers := ("Content-Type", "application/json") :: cors_headers,
          body := .utf8 "\x7b\"error\": \x7b\"message\": \"Request failed: Too Many Requests\", \"type\": \"http_error\", \"code\": 429\x7d\x7d" } ∧
    Body.utf8 "\x7b\"error\": \x7b\"message\": \"Request failed: Too Many Requests\", \"type\": \"http_error\", \"code\": 429\x7d\x7d" ≠
      Body.utf8 "\x7b\"error\":\x7b\"message\":\"Too Many Requests\",\"type\":\"http_error\",\"code\":429\x7d\x7d" :=
  ⟨by decide, by decide⟩

/-- C3 (amended): for every proxy request whose upstream call raises an HTTP
error, the relayed response carries the upstream status code and a JSON body
of the form
`{"error": {"message": "Request failed: " + <reason>, "type": "http_error", "code": <code>}}`
(`json.dumps` default spacing); in particular upstream 429 "Too Many
Requests" yields status 429 with body
`{"error": {"message": "Request failed: Too Many Requests", "type": "http_error", "code": 429}}`. -/
theorem httpError_relay (cfg : Config) (b64decode : String → Except String String)
    (req : Request) (code : Nat) (reason k u : String)
    (hpath : strStartsWith req.path "/proxy/" = true)
    (hkey : resolveApiKey cfg b64decode req.headers = .ok k)
    (hurl : resolveTarget cfg (headerGet req.headers "X-OpenWebUI-URL") = .ok u) :
    (handle_proxy_request cfg b64decode (.httpError code reason) req).response =
      .normal
        { status := code,
          headers := ("Content-Type", "application/json") :: cors_headers,
          body := .utf8 (httpErrorBody code reason) } ∧
    httpErrorBody 429 "Too Many Requests" =
      "\x7b\"error\": \x7b\"message\": \"Request failed: Too Many Requests\", \"type\": \"http_error\", \"code\": 429\x7d\x7d" := by
  refine ⟨?_, by decide⟩
  simp [handle_proxy_request, hpath, hkey, hurl]

/-- C3 (witness): the amended relay theorem at a concrete configuration and
request. -/
theorem httpError_relay_witness :
    (handle_proxy_request { serverApiKey := some "srv", defaultUrl := some "https://host" }
        (fun _ => .error "x") (.httpError 429 "Too Many Requests")
        { method := .POST, path := "/proxy/api/chat/completions", headers := [], body := [1] }).response =
      .normal
        { status := 429,
          headers := ("Content-Type", "application/json") :: cors_headers,
          body := .utf8 (httpErrorBody 429 "Too Many Requests") } ∧
    httpErrorBody 429 "Too Many Requests" =
      "\x7b\"error\": \x7b\"message\": \"Request failed: Too Many Requests\", \"type\": \"http_error\", \"code\": 429\x7d\x7d" :=
  httpError_relay { serverApiKey := some "srv", defaultUrl := some "https://host" }
    (fun _ => .error "x")
    { method := .POST, path := "/proxy/api/chat/completions", headers := [], body := [1] }
    429 "Too Many Requests" "srv" "https://host" (by decide) rfl rfl

/-! ## C4: invalid client key encoding -/

/-- C4: with no (truthy) server-side key and a present, non-empty `X-API-Key`
header whose value fails base64/UTF-8 decoding, the handler answers
`400 Invalid API key encoding: <exception>` and makes no outbound request. -/
theorem invalidKeyEncoding_400_noDispatch (cfg : Config)
    (b64decode : String → Except String String) (upstream : UpstreamOutcome)
    (req : Request) (v e : String)
    (hsrv : truthyStr cfg.serverApiKey = none)
    (hpath : strStartsWith req.path "/proxy/" = true)
    (hhdr : truthyStr (headerGet req.headers "X-API-Key") = some v)
    (hdec : b64decode v = .error e) :
    (handle_proxy_request cfg b64decode upstream req).response =
      .error 400 ("Invalid API key encoding: " ++ e) ∧
    (handle_proxy_request cfg b64decode upstream req).dispatched = false ∧
    (handle_proxy_request cfg b64decode upstream req).outbound = none := by
  refine ⟨?_, ?_, ?_⟩ <;>
    simp [handle_proxy_request, hpath, resolveApiKey, hsrv, hhdr, hdec]

/-- C4 (witness): concrete instance with `X-API-Key: !!!` failing to decode. -/
theorem invalidKeyEncoding_400_noDispatch_witness :
    (handle_proxy_request { serverApiKey := none, defaultUrl := some "https://host" }
        (fun s => if s = "!!!" then .error "Invalid base64-encoded string" else .ok s)
        (.success 200 [] [])
        { method := .GET, path := "/proxy/models",
          headers := [("X-API-Key", "!!!")], body := [] }).response =
      .error 400 ("Invalid API key encoding: " ++ "Invalid base64-encoded string") ∧
    (handle_proxy_request { serverApiKey := none, defaultUrl := some "https://host" }
        (fun s => if s = "!!!" then .error "Invalid base64-encoded string" else .ok s)
        (.success 200 [] [])
        { method := .GET, path := "/proxy/models",
          headers := [("X-API-Key", "!!!")], body := [] }).dispatched = false ∧
    (handle_proxy_request { serverApiKey := none, defaultUrl := some "https://host" }
        (fun s => if s = "!!!" then .error "Invalid base64-encoded string" else .ok s)
        (.success 200 [] [])
        { method := .GET, path := "/proxy/models",
          headers := [("X-API-Key", "!!!")], body := [] }).outbound = none :=
  invalidKeyEncoding_400_noDispatch { serverApiKey := none, defaultUrl := some "https://host" }
    (fun s => if s = "!!!" then .error "Invalid base64-encoded string" else .ok s)
    (.success 200 [] [])
    { method := .GET, path := "/proxy/models", headers := [("X-API-Key", "!!!")], body := [] }
    "!!!" "Invalid base64-encoded string" rfl (by decide) rfl rfl

/-! ## C5: missing credentials -/

/-- C5: with no (truthy) server-side key and no (truthy) `X-API-Key` header,
the handler answers 400 with a message naming both the `X-API-Key` header and
the `OPENWEBUI_API_KEY` environment variable, and makes no outbound
request. -/
theorem missingCredentials_400_noDispatch (cfg : Config)
    (b64decode : String → Except String String) (upstream : UpstreamOutcome)
    (req : Request)
    (hsrv : truthyStr cfg.serverApiKey = none)
    (hpath : strStartsWith req.path "/proxy/" = true)
    (hhdr : truthyStr (headerGet req.headers "X-API-Key") = none) :
    (handle_proxy_request cfg b64decode upstream req).response =
      .error 400 "Missing X-API-Key header or server-side OPENWEBUI_API_KEY environment variable" ∧
    (handle_proxy_request cfg b64decode upstream req).dispatched = false ∧
    (handle_proxy_request cfg b64decode upstream req).outbound = none := by
  refine ⟨?_, ?_, ?_⟩ <;>
    simp [handle_proxy_request, hpath, resolveApiKey, hsrv, hhdr]

/-- C5 (witness): concrete instance with no credentials at all. -/
theorem missingCredentials_400_noDispatch_witness :
    (handle_proxy_request { serverApiKey := none, defaultUrl := some "https://host" }
        (fun s => .ok s) (.success 200 [] [])
        { method := .GET, path := "/proxy/models", headers := [], body := [] }).response =
      .error 400 "Missing X-API-Key header or server-side OPENWEBUI_API_KEY environment variable" ∧
    (handle_proxy_request { serverApiKey := none, defaultUrl := some "https://host" }
        (fun s => .ok s) (.success 200 [] [])
        { method := .GET, path := "/proxy/models", headers := [], body := [] }).dispatched = false ∧
    (handle_proxy_request { serverApiKey := none, defaultUrl := some "https://host" }
        (fun s => .ok s) (.success 200 [] [])
        { method := .GET, path := "/proxy/models", headers := [], body := [] }).outbound = none :=
  missingCredentials_400_noDispatch { serverApiKey := none, defaultUrl := some "https://host" }
    (fun s => .ok s) (.success 200 [] [])
    { method := .GET, path := "/proxy/models", headers := [], body := [] }
    (by decide) (by decide) (by decide)

/-! ## C6: success-path relay -/

theorem hasCorsOrigin_append_cors (hs : List (String × String)) :
    hasCorsOrigin (hs ++ cors_headers) = true := by
  unfold hasCorsOrigin
  rw [List.any_append]
  have h : cors_headers.any
      (fun p => strToLower p.1 == "access-control-allow-origin") = true := by decide
  rw [h, Bool.or_true]

/-- C6: on a successful upstream call the relayed response carries the
upstream status verbatim, the upstream body bytes verbatim, and exactly the
upstream headers minus the case-insensitive `Connection` /
`Transfer-Encoding` denylist (plus the CORS headers); no header named
`Connection` or `Transfer-Encoding` (case-insensitively) appears in the
relayed header set. -/
theorem success_relay (cfg : Config) (b64decode : String → Except String String)
    (req : Request) (st : Nat) (rhs : List (String × String)) (rbody : List Nat)
    (k u : String)
    (hpath : strStartsWith req.path "/proxy/" = true)
    (hkey : resolveApiKey cfg b64decode req.headers = .ok k)
    (hurl : resolveTarget cfg (headerGet req.headers "X-OpenWebUI-URL") = .ok u) :
    (handle_proxy_request cfg b64decode (.success st rhs rbody) req).response =
      .normal
        { status := st,
          headers := filterHopByHop rhs ++ cors_headers,
          body := .raw rbody } ∧
    ∀ p ∈ filterHopByHop rhs ++ cors_headers,
      strToLower p.1 ≠ "connection" ∧ strToLower p.1 ≠ "transfer-encoding" := by
  constructor
  · simp [handle_proxy_request, hpath, hkey, hurl]
  · intro p hp
    rcases List.mem_append.mp hp with hmem | hmem
    · rw [filterHopByHop] at hmem
      have hpred := (List.mem_filter.mp hmem).2
      simp [hop_by_hop] at hpred
      exact hpred
    · simp only [cors_headers, List.mem_cons, List.not_mem_nil, or_false] at hmem
      rcases hmem with h | h | h <;> subst h <;> exact ⟨by decide, by decide⟩

/-- C6 (witness): the relay equation at a concrete request whose upstream
response carries `Connection` and `Transfer-Encoding` headers. -/
theorem success_relay_witness :
    (handle_proxy_request { serverApiKey := some "srv", defaultUrl := some "https://host" }
        (fun s => .ok s) (.success 200
          [("Connection", "keep-alive"), ("Transfer-Encoding", "chunked"), ("X-Foo", "bar")]
          [104, 105])
        { method := .GET, path := "/proxy/models", headers := [], body := [] }).response =
      .normal
        { status := 200,
          headers := filterHopByHop
              [("Connection", "keep-alive"), ("Transfer-Encoding", "chunked"), ("X-Foo", "bar")] ++
            cors_headers,
          body := .raw [104, 105] } :=
  (success_relay { serverApiKey := some "srv", defaultUrl := some "https://host" }
    (fun s => .ok s)
    { method := .GET, path := "/proxy/models", headers := [], body := [] }
    200 [("Connection", "keep-alive"), ("Transfer-Encoding", "chunked"), ("X-Foo", "bar")]
    [104, 105] "srv" "https://host" (by decide) rfl rfl).1

/-! ## C7: outbound headers -/

/-- C7: whenever dispatch is reached, the outbound request carries exactly
the three headers `Authorization: Bearer <token>`, `Content-Type:
application/json` and the fixed browser-like `User-Agent` — a list
independent of the incoming request's headers, so none of them is
forwarded. -/
theorem outbound_headers_fixed (cfg : Config)
    (b64decode : String → Except String String) (upstream : UpstreamOutcome)
    (req : Request) (k u : String)
    (hpath : strStartsWith req.path "/proxy/" = true)
    (hkey : resolveApiKey cfg b64decode req.headers = .ok k)
    (hurl : resolveTarget cfg (headerGet req.headers "X-OpenWebUI-URL") = .ok u) :
    ((handle_proxy_request cfg b64decode upstream req).outbound).map OutboundRequest.headers =
      some [("Authorization", "Bearer " ++ k),
            ("Content-Type", "application/json"),
            ("User-Agent", user_agent)] := by
  cases upstream <;> simp [handle_proxy_request, hpath, hkey, hurl, outboundHeaders]

/-- C7 (witness): the outbound header set at a concrete request that carries
several incoming headers, none of which is forwarded. -/
theorem outbound_headers_fixed_witness :
    ((handle_proxy_request { serverApiKey := some "srv", defaultUrl := some "https://host" }
        (fun s => .ok s) (.success 200 [] [])
        { method := .POST, path := "/proxy/api/chat/completions",
          headers := [("Cookie", "secret"), ("Accept", "text/event-stream")],
          body := [123] }).outbound).map OutboundRequest.headers =
      some [("Authorization", "Bearer " ++ "srv"),
            ("Content-Type", "application/json"),
            ("User-Agent", user_agent)] :=
  outbound_headers_fixed { serverApiKey := some "srv", defaultUrl := some "https://host" }
    (fun s => .ok s) (.success 200 [] [])
    { method := .POST, path := "/proxy/api/chat/completions",
      headers := [("Cookie", "secret"), ("Accept", "text/event-stream")], body := [123] }
    "srv" "https://host" (by decide) rfl rfl

/-! ## C8: 404 fallthrough -/

/-- C8 (counterexample): "regardless of the request method" fails — an
OPTIONS request to a path that is neither `/proxy/*` nor a static route is
answered 200 (CORS preflight), not 404. -/
theorem notFound_anyMethod_counterexample :
    (handle_request { serverApiKey := none, defaultUrl := none } (fun s => .ok s)
        (.urlError "down") none
        { method := .OPTIONS, path := "/nothing", headers := [], body := [] }).response.statusCode =
      200 ∧
    (200 : Nat) ≠ 404 :=
  ⟨by decide, by decide⟩

/-- C8 (amended): for every GET or POST request whose path does not start
with `/proxy/` and is neither `/` nor `/webchat.html`, the response is 404
with body `Not Found` (OPTIONS requests instead receive the 200 CORS
preflight response). -/
theorem notFound_get_post (cfg : Config) (b64decode : String → Except String String)
    (upstream : UpstreamOutcome) (webchat : Option (List Nat)) (req : Request)
    (hm : req.method = Method.GET ∨ req.method = Method.POST)
    (hp : strStartsWith req.path "/proxy/" = false)
    (h1 : req.path ≠ "/") (h2 : req.path ≠ "/webchat.html") :
    (handle_request cfg b64decode upstream webchat req).response =
      .normal { status := 404, headers := [], body := .utf8 "Not Found" } := by
  rcases hm with hm | hm <;>
    simp [handle_request, hm, h1, h2, hp, notFoundResult]

/-- C8 (witness): a concrete GET to `/unknown` is answered 404 `Not Found`. -/
theorem notFound_get_post_witness :
    (handle_request { serverApiKey := some "srv", defaultUrl := some "https://host" }
        (fun s => .ok s) (.success 200 [] []) (some [60])
        { method := .GET, path := "/unknown", headers := [], body := [] }).response =
      .normal { status := 404, headers := [], body := .utf8 "Not Found" } :=
  notFound_get_post { serverApiKey := some "srv", defaultUrl := some "https://host" }
    (fun s => .ok s) (.success 200 [] []) (some [60])
    { method := .GET, path := "/unknown", headers := [], body := [] }
    (Or.inl rfl) (by decide) (by decide) (by decide)

/-! ## C9: CORS headers on error paths vs success paths -/

/-- C9: every response emitted through `send_error` — in particular the 400s
for missing credentials, invalid key encoding and missing target URL, and the
500s for transport-level (`URLError`) and unexpected failures — carries no
`Access-Control-*` header at all; whereas the success relay, the
upstream-HTTP-error relay, the OPTIONS preflight and the static page all
carry `Access-Control-Allow-Origin`. -/
theorem cors_absent_on_error_paths :
    (∀ (cfg : Config) (d : String → Except String String) (up : UpstreamOutcome)
        (webchat : Option (List Nat)) (req : Request) (c : Nat) (m : String),
        (handle_request cfg d up webchat req).response = .error c m →
        hasAnyCors (handle_request cfg d up webchat req).response.headerList = false) ∧
    (∀ (cfg : Config) (d : String → Except String String) (up : UpstreamOutcome)
        (req : Request),
        truthyStr cfg.serverApiKey = none →
        strStartsWith req.path "/proxy/" = true →
        truthyStr (headerGet req.headers "X-API-Key") = none →
        (handle_proxy_request cfg d up req).response =
          .error 400 "Missing X-API-Key header or server-side OPENWEBUI_API_KEY environment variable") ∧
    (∀ (cfg : Config) (d : String → Except String String) (up : UpstreamOutcome)
        (req : Request) (v e : String),
        truthyStr cfg.serverApiKey = none →
        strStartsWith req.path "/proxy/" = true →
        truthyStr (headerGet req.headers "X-API-Key") = some v →
        d v = .error e →
        (handle_proxy_request cfg d up req).response =
          .error 400 ("Invalid API key encoding: " ++ e)) ∧
    (∀ (cfg : Config) (d : String → Except String String) (up : UpstreamOutcome)
        (req : Request) (k : String),
        strStartsWith req.path "/proxy/" = true →
        resolveApiKey cfg d req.headers = .ok k →
        truthyStr (headerGet req.headers "X-OpenWebUI-URL") = none →
        truthyStr cfg.defaultUrl = none →
        (handle_proxy_request cfg d up req).response =
          .error 400 "Missing X-OpenWebUI-URL header or DEFAULT_OPENWEBUI_URL environment variable") ∧
    (∀ (cfg : Config) (d : String → Except String String) (req : Request)
        (reason k u : String),
        strStartsWith req.path "/proxy/" = true →
        resolveApiKey cfg d req.headers = .ok k →
        resolveTarget cfg (headerGet req.headers "X-OpenWebUI-URL") = .ok u →
        (handle_proxy_request cfg d (.urlError reason) req).response =
          .error 500 ("URL Error: " ++ reason)) ∧
    (∀ (cfg : Config) (d : String → Except String String) (req : Request)
        (msg k u : String),
        strStartsWith req.path "/proxy/" = true →
        resolveApiKey cfg d req.headers = .ok k →
        resolveTarget cfg (headerGet req.headers "X-OpenWebUI-URL") = .ok u →
        (handle_proxy_request cfg d (.otherError msg) req).response =
          .error 500 ("Request failed with error: " ++ msg)) ∧
    (∀ (cfg : Config) (d : String → Except String String) (req : Request)
        (st : Nat) (rhs : List (String × String)) (rbody : List Nat) (k u : String),
        strStartsWith req.path "/proxy/" = true →
        resolveApiKey cfg d req.headers = .ok k →
        resolveTarget cfg (headerGet req.headers "X-OpenWebUI-URL") = .ok u →
        hasCorsOrigin
          (handle_proxy_request cfg d (.success st rhs rbody) req).response.headerList = true) ∧
    (∀ (cfg : Config) (d : String → Except String String) (req : Request)
        (code : Nat) (reason k u : String),
        strStartsWith req.path "/proxy/" = true →
        resolveApiKey cfg d req.headers = .ok k →
        resolveTarget cfg (headerGet req.headers "X-OpenWebUI-URL") = .ok u →
        hasCorsOrigin
          (handle_proxy_request cfg d (.httpError code reason) req).response.headerList = true) ∧
    (∀ (cfg : Config) (d : String → Except String String) (up : UpstreamOutcome)
        (webchat : Option (List Nat)) (req : Request),
        req.method = Method.OPTIONS →
        hasCorsOrigin (handle_request cfg d up webchat req).response.headerList = true) ∧
    (∀ content : List Nat,
        hasCorsOrigin (serve_webchat_file (some content)).response.headerList = true) := by
  refine ⟨?_, ?_, ?_, ?_, ?_, ?_, ?_, ?_, ?_, ?_⟩
  · intro cfg d up webchat req c m h
    rw [h]
    simp only [HandlerResponse.headerList]
    decide
  · intro cfg d up req hsrv hpath hhdr
    simp [handle_proxy_request, hpath, resolveApiKey, hsrv, hhdr]
  · intro cfg d up req v e hsrv hpath hhdr hdec
    simp [handle_proxy_request, hpath, resolveApiKey, hsrv, hhdr, hdec]
  · intro cfg d up req k hpath hkey hh hd
    simp [handle_proxy_request, hpath, hkey, resolveTarget, hh, hd]
  · intro cfg d req reason k u hpath hkey hurl
    simp [handle_proxy_request, hpath, hkey, hurl]
  · intro cfg d req msg k u hpath hkey hurl
    simp [handle_proxy_request, hpath, hkey, hurl]
  · intro cfg d req st rhs rbody k u hpath hkey hurl
    simp only [handle_proxy_request, hpath, hkey, hurl]
    simpa [HandlerResponse.headerList] using hasCorsOrigin_append_cors (filterHopByHop rhs)
  · intro cfg d req code reason k u hpath hkey hurl
    simp only [handle_proxy_request, hpath, hkey, hurl]
    simpa [HandlerResponse.headerList] using
      hasCorsOrigin_append_cors [("Content-Type", "application/json")]
  · intro cfg d up webchat req hm
    simp [handle_request, hm, HandlerResponse.headerList]
    decide
  · intro content
    simpa [serve_webchat_file, HandlerResponse.headerList] using
      hasCorsOrigin_append_cors [("Content-type", "text/html")]

/-- C9 (witness): each branch of the CORS theorem at a concrete input. -/
theorem cors_absent_on_error_paths_witness :
    hasAnyCors (handle_request { serverApiKey := none, defaultUrl := none }
      (fun s => .ok s) (.urlError "x") none
      { method := .GET, path := "/proxy/models", headers := [], body := [] }).response.headerList = false ∧
    (handle_proxy_request { serverApiKey := none, defaultUrl := none }
      (fun s => .ok s) (.success 200 [] [])
      { method := .GET, path := "/proxy/models", headers := [], body := [] }).response =
      .error 400 "Missing X-API-Key header or server-side OPENWEBUI_API_KEY environment variable" ∧
    (handle_proxy_request { serverApiKey := none, defaultUrl := none }
      (fun _ => .error "bad padding") (.success 200 [] [])
      { method := .GET, path := "/proxy/models", headers := [("X-API-Key", "%%")], body := [] }).response =
      .error 400 ("Invalid API key encoding: " ++ "bad padding") ∧
    (handle_proxy_request { serverApiKey := some "srv", defaultUrl := none }
      (fun s => .ok s) (.success 200 [] [])
      { method := .GET, path := "/proxy/models", headers := [], body := [] }).response =
      .error 400 "Missing X-OpenWebUI-URL header or DEFAULT_OPENWEBUI_URL environment variable" ∧
    (handle_proxy_request { serverApiKey := some "srv", defaultUrl := some "https://host" }
      (fun s => .ok s) (.urlError "refused")
      { method := .GET, path := "/proxy/models", headers := [], body := [] }).response =
      .error 500 ("URL Error: " ++ "refused") ∧
    (handle_proxy_request { serverApiKey := some "srv", defaultUrl := some "https://host" }
      (fun s => .ok s) (.otherError "boom")
      { method := .GET, path := "/proxy/models", headers := [], body := [] }).response =
      .error 500 ("Request failed with error: " ++ "boom") ∧
    hasCorsOrigin (handle_proxy_request { serverApiKey := some "srv", defaultUrl := some "https://host" }
      (fun s => .ok s) (.success 200 [("Connection", "close")] [1])
      { method := .GET, path := "/proxy/models", headers := [], body := [] }).response.headerList = true ∧
    hasCorsOrigin (handle_proxy_request { serverApiKey := some "srv", defaultUrl := some "https://host" }
      (fun s => .ok s) (.httpError 404 "Not Found")
      { method := .GET, path := "/proxy/models", headers := [], body := [] }).response.headerList = true ∧
    hasCorsOrigin (handle_request { serverApiKey := none, defaultUrl := none }
      (fun s => .ok s) (.urlError "x") none
      { method := .OPTIONS, path := "/anything", headers := [], body := [] }).response.headerList = true ∧
    hasCorsOrigin (serve_webchat_file (some [1])).response.headerList = true :=
  ⟨cors_absent_on_error_paths.1 { serverApiKey := none, defaultUrl := none }
      (fun s => .ok s) (.urlError "x") none
      { method := .GET, path := "/proxy/models", headers := [], body := [] }
      400 "Missing X-API-Key header or server-side OPENWEBUI_API_KEY environment variable" rfl,
   cors_absent_on_error_paths.2.1 { serverApiKey := none, defaultUrl := none }
      (fun s => .ok s) (.success 200 [] [])
      { method := .GET, path := "/proxy/models", headers := [], body := [] }
      rfl (by decide) rfl,
   cors_absent_on_error_paths.2.2.1 { serverApiKey := none, defaultUrl := none }
      (fun _ => .error "bad padding") (.success 200 [] [])
      { method := .GET, path := "/proxy/models", headers := [("X-API-Key", "%%")], body := [] }
      "%%" "bad padding" rfl (by decide) rfl rfl,
   cors_absent_on_error_paths.2.2.2.1 { serverApiKey := some "srv", defaultUrl := none }
      (fun s => .ok s) (.success 200 [] [])
      { method := .GET, path := "/proxy/models", headers := [], body := [] }
      "srv" (by decide) rfl rfl rfl,
   cors_absent_on_error_paths.2.2.2.2.1 { serverApiKey := some "srv", defaultUrl := some "https://host" }
      (fun s => .ok s)
      { method := .GET, path := "/proxy/models", headers := [], body := [] }
      "refused" "srv" "https://host" (by decide) rfl rfl,
   cors_absent_on_error_paths.2.2.2.2.2.1 { serverApiKey := some "srv", defaultUrl := some "https://host" }
      (fun s => .ok s)
      { method := .GET, path := "/proxy/models", headers := [], body := [] }
      "boom" "srv" "https://host" (by decide) rfl rfl,
   cors_absent_on_error_paths.2.2.2.2.2.2.1 { serverApiKey := some "srv", defaultUrl := some "https://host" }
      (fun s => .ok s)
      { method := .GET, path := "/proxy/models", headers := [], body := [] }
      200 [("Connection", "close")] [1] "srv" "https://host" (by decide) rfl rfl,
   cors_absent_on_error_paths.2.2.2.2.2.2.2.1 { serverApiKey := some "srv", defaultUrl := some "https://host" }
      (fun s => .ok s)
      { method := .GET, path := "/proxy/models", headers := [], body := [] }
      404 "Not Found" "srv" "https://host" (by decide) rfl rfl,
   cors_absent_on_error_paths.2.2.2.2.2.2.2.2.1 { serverApiKey := none, defaultUrl := none }
      (fun s => .ok s) (.urlError "x") none
      { method := .OPTIONS, path := "/anything", headers := [], body := [] } rfl,
   cors_absent_on_error_paths.2.2.2.2.2.2.2.2.2 [1]⟩

/-! ## C10: the "Invalid proxy path" branch is unreachable -/

theorem invalidEncodingMsg_ne (e : String) :
    "Invalid API key encoding: " ++ e ≠ "Invalid proxy path" := by
  intro h
  have hl := congrArg String.length h
  rw [String.length_append] at hl
  have h1 : ("Invalid API key encoding: " : String).length = 26 := by decide
  have h2 : ("Invalid proxy path" : String).length = 18 := by decide
  rw [h1, h2] at hl
  omega

theorem resolveApiKey_error_cases (cfg : Config) (d : String → Except String String)
    (hs : List (String × String)) (c : Nat) (m : String)
    (h : resolveApiKey cfg d hs = .error (c, m)) :
    c = 400 ∧
    (m = "Missing X-API-Key header or server-side OPENWEBUI_API_KEY environment variable" ∨
     ∃ e, m = "Invalid API key encoding: " ++ e) := by
  unfold resolveApiKey at h
  cases htr : truthyStr cfg.serverApiKey with
  | some k => rw [htr] at h; simp at h
  | none =>
    rw [htr] at h
    cases hh : truthyStr (headerGet hs "X-API-Key") with
    | none =>
      rw [hh] at h
      simp at h
      exact ⟨h.1.symm, .inl h.2.symm⟩
    | some enc =>
      rw [hh] at h
      simp only [Option.some.injEq] at h
      cases hd : d enc with
      | ok key => rw [hd] at h; simp at h
      | error e =>
        rw [hd] at h
        simp at h
        exact ⟨h.1.symm, .inr ⟨e, h.2.symm⟩⟩

theorem resolveTarget_error_cases (cfg : Config) (u : Option String) (c : Nat) (m : String)
    (h : resolveTarget cfg u = .error (c, m)) :
    c = 400 ∧
    m = "Missing X-OpenWebUI-URL header or DEFAULT_OPENWEBUI_URL environment variable" := by
  unfold resolveTarget at h
  cases htr : truthyStr u with
  | some v => rw [htr] at h; simp at h
  | none =>
    rw [htr] at h
    cases hdef : truthyStr cfg.defaultUrl with
    | some w => rw [hdef] at h; simp at h
    | none =>
      rw [hdef] at h
      simp at h
      exact ⟨h.1.symm, h.2.symm⟩

theorem handle_proxy_ne_invalidPath (cfg : Config) (d : String → Except String String)
    (up : UpstreamOutcome) (req : Request)
    (hpath : strStartsWith req.path "/proxy/" = true) :
    (handle_proxy_request cfg d up req).response ≠ .error 400 "Invalid proxy path" := by
  simp only [handle_proxy_request, hpath, if_true]
  cases hk : resolveApiKey cfg d req.headers with
  | error em =>
    obtain ⟨c, m⟩ := em
    have hcm := resolveApiKey_error_cases cfg d req.headers c m hk
    simp only [hk]
    intro heq
    injection heq with h1 h2
    rcases hcm.2 with hm | ⟨e, hm⟩
    · rw [hm] at h2
      exact absurd h2 (by decide)
    · rw [hm] at h2
      exact invalidEncodingMsg_ne e h2
  | ok k =>
    cases hu : resolveTarget cfg (headerGet req.headers "X-OpenWebUI-URL") with
    | error em =>
      obtain ⟨c, m⟩ := em
      have hcm := resolveTarget_error_cases cfg (headerGet req.headers "X-OpenWebUI-URL") c m hu
      simp only [hk, hu]
      intro heq
      injection heq with h1 h2
      rw [hcm.2] at h2
      exact absurd h2 (by decide)
    | ok u =>
      cases up <;> simp [hk, hu]

/-- C10: the `send_error(400, "Invalid proxy path")` branch of
`handle_proxy_request` is dead code: `do_GET` and `do_POST` call it only
under the `path.startswith('/proxy/')` guard, on the same unchanged
`self.path`, so no handled request can ever produce that response. -/
theorem invalidProxyPath_unreachable (cfg : Config) (d : String → Except String String)
    (up : UpstreamOutcome) (webchat : Option (List Nat)) (req : Request) :
    (handle_request cfg d up webchat req).response ≠ .error 400 "Invalid proxy path" := by
  cases hm : req.method with
  | OPTIONS => simp [handle_request, hm]
  | GET =>
    by_cases h1 : req.path = "/" ∨ req.path = "/webchat.html"
    · cases webchat with
      | some c => simp [handle_request, hm, h1, serve_webchat_file]
      | none => simp [handle_request, hm, h1, serve_webchat_file]
    · by_cases h2 : strStartsWith req.path "/proxy/" = true
      · simpa [handle_request, hm, h1, h2] using handle_proxy_ne_invalidPath cfg d up req h2
      · have h2f : strStartsWith req.path "/proxy/" = false := by simpa using h2
        simp [handle_request, hm, h1, h2f, notFoundResult]
  | POST =>
    by_cases h2 : strStartsWith req.path "/proxy/" = true
    · simpa [handle_request, hm, h2] using handle_proxy_ne_invalidPath cfg d up req h2
    · have h2f : strStartsWith req.path "/proxy/" = false := by simpa using h2
      simp [handle_request, hm, h2f, notFoundResult]
